import Mathlib

/-!
Verification development for the globe news post-processor pipeline.

The Python data model and the orchestration/retry/failure-routing logic of
the repository are shallowly embedded as executable Lean definitions.
External capabilities (the LLM call, the translation HTTP call, the MongoDB
driver) are modelled as explicit oracles / state transformers, mirroring the
control flow of the source files:
  - globe_news_post_processor/models.py
  - globe_news_post_processor/__init__.py
  - globe_news_post_processor/post_process_pipeline/post_processor.py
  - globe_news_post_processor/post_process_pipeline/translator.py
  - globe_news_post_processor/post_process_pipeline/langchain/llm_handlers/{base,factory,azure_openai}.py
  - globe_news_post_processor/database/mongo_handler.py
-/

namespace GlobeNews

/-- Embeds `GlobeArticle` of models.py.  MongoDB ObjectIds are modelled as
naturals, timestamps as naturals, language / country codes as strings
(`language` is `Optional[LanguageAlpha2]`, hence `Option String`). -/
structure GlobeArticle where
  id : Nat
  title : String
  title_translated : Option String
  url : String
  description : String
  description_translated : Option String
  date_published : Nat
  provider : String
  language : Option String
  content : String
  origin_country : String
  keywords : List String
  source_api : String
  schema_version : String
  date_scraped : Nat
  category : Option String := none
  authors : Option (List String) := none
  related_countries : Option (List String) := none
  image_url : Option String := none
  post_processed : Bool
  deriving Repr, DecidableEq

/-- Embeds `LLMArticleData` of models.py: the structured data parsed from the
LLM response (category from a closed enumeration, related country codes, at
most five keywords). -/
structure LLMArticleData where
  category : String
  related_countries : List String
  keywords : List String
  deriving Repr, DecidableEq

/-- Embeds the token-usage dictionaries `{'input_tokens': _, 'output_tokens': _}`. -/
structure TokenUsage where
  input_tokens : Nat
  output_tokens : Nat
  deriving Repr, DecidableEq

/-- Embeds `CuratedGlobeArticle` of models.py: a `GlobeArticle` to which the
two pydantic validators have been applied by construction. -/
structure CuratedGlobeArticle where
  toGlobeArticle : GlobeArticle
  deriving Repr, DecidableEq

/-- Embeds `FailedGlobeArticle` of models.py: the base article fields plus a
`failure_reason` string. -/
structure FailedGlobeArticle where
  toGlobeArticle : GlobeArticle
  failure_reason : String
  deriving Repr, DecidableEq

/-- Python truthiness of an `Optional[List[...]]` value (`None` and the empty
list are falsy), as used by the guard of `remove_origin_country`. -/
def optListTruthy (l : Option (List String)) : Bool :=
  match l with
  | none => false
  | some xs => !xs.isEmpty

/-- Embeds the construction of a `CuratedGlobeArticle` from field values:
pydantic runs `set_post_processed_to_true` (the `post_processed` flag is
forced to `True`) and `remove_origin_country` (when `origin_country` and
`related_countries` are both truthy, every entry equal to the origin country
is removed from `related_countries`). -/
def validateCurated (g : GlobeArticle) : CuratedGlobeArticle :=
  let g := { g with post_processed := true }
  if g.origin_country ≠ "" ∧ optListTruthy g.related_countries then
    ⟨{ g with related_countries :=
        (g.related_countries.getD []).filter (fun c => c ≠ g.origin_country) }⟩
  else ⟨g⟩

/-- Embeds `ArticlePostProcessor._create_curated_article` of post_processor.py:
builds a `CuratedGlobeArticle` from the original article with `category`,
`related_countries` and `keywords` replaced by the LLM result and the
translated title/description filled in; the pydantic validators run on
construction. -/
def createCuratedArticle (article : GlobeArticle) (llm_result : LLMArticleData)
    (translated_title translated_description : String) : CuratedGlobeArticle :=
  validateCurated
    { article with
      category := some llm_result.category
      related_countries := some llm_result.related_countries
      keywords := llm_result.keywords
      title_translated := some translated_title
      description_translated := some translated_description }

/-- Outcome of `ArticlePostProcessor.process_article`: the Python code returns
either a `(CuratedGlobeArticle, token_usage)` tuple or a `FailedGlobeArticle`;
`GlobeNewsPostProcessor._process_batch` discriminates with `isinstance(result, tuple)`. -/
inductive ProcessArticleResult where
  | success (curated : CuratedGlobeArticle) (token_usage : TokenUsage)
  | failure (failed : FailedGlobeArticle)
  deriving Repr, DecidableEq

/-- Embeds `GlobeNewsPostProcessor._process_batch` of `__init__.py`: iterates
over the batch, appending each article's result to exactly one of the
`curated_articles` / `failed_articles` lists and accumulating token usage of
the successful ones.  The per-article processing is the abstract parameter
`proc` (the code delegates to `self._article_post_processor.process_article`). -/
def processBatch (proc : GlobeArticle → ProcessArticleResult) :
    List GlobeArticle → List CuratedGlobeArticle × List FailedGlobeArticle × TokenUsage
  | [] => ([], [], ⟨0, 0⟩)
  | article :: rest =>
    let r := processBatch proc rest
    match proc article with
    | .success c tu =>
        (c :: r.1, r.2.1, ⟨tu.input_tokens + r.2.2.input_tokens,
                           tu.output_tokens + r.2.2.output_tokens⟩)
    | .failure f => (r.1, f :: r.2.1, r.2.2)

/-! Translator pipeline (post_processor.py and translator.py). -/

/-- Method names defined in the class body of `ArticleTranslator`
(translator.py): the class defines only `translate_async` besides its
constructor and the private `_validate_translation`. -/
def articleTranslatorMethodNames : List String :=
  ["__init__", "translate_async", "_validate_translation"]

/-- The message of the `AttributeError` that Python raises when the attribute
`translate` is looked up on an `ArticleTranslator` instance. -/
def translateAttributeError : String :=
  "AttributeError: ArticleTranslator object has no attribute translate"

/-- Embeds the call `self._translator.translate(text, from_lang=...)` made by
`ArticlePostProcessor._translate_if_needed`: Python first resolves the
attribute `translate` on the `ArticleTranslator` instance, and since the class
defines no method of that name the lookup raises `AttributeError` (the branch
where such a method would be dispatched is unreachable). -/
def translatorTranslate (text _lang : String) : Except String String :=
  if "translate" ∈ articleTranslatorMethodNames then
    .ok text
  else
    .error translateAttributeError

/-- Outcome of `ArticlePostProcessor._translate_if_needed`: the returned
(title, description) pair or the raised exception, together with the number of
calls made on the translator (0 when the English/unset branch is taken). -/
structure TranslateIfNeededRun where
  result : Except String (String × String)
  translator_calls : Nat
  deriving Repr

/-- Embeds `ArticlePostProcessor._translate_if_needed`: when the article's
language is set and is not English, the title and then the description are
passed through the translator; otherwise the original title and description
are returned without touching the translator. -/
def translateIfNeeded (article : GlobeArticle) : TranslateIfNeededRun :=
  match article.language with
  | some lang =>
    if lang ≠ "en" then
      match translatorTranslate article.title lang with
      | .error e => ⟨.error e, 1⟩
      | .ok t =>
        match translatorTranslate article.description lang with
        | .error e => ⟨.error e, 2⟩
        | .ok d => ⟨.ok (t, d), 2⟩
    else ⟨.ok (article.title, article.description), 0⟩
  | none => ⟨.ok (article.title, article.description), 0⟩

/-- Embeds `ArticlePostProcessor.process_article`: runs the LLM handler call
(modelled by the oracle `llm_handler`), then the translation step, and builds
the curated article; any exception raised along the way is caught and turned
into a `FailedGlobeArticle` whose `failure_reason` is the exception text. -/
def processArticle
    (llm_handler : GlobeArticle → Except String (LLMArticleData × TokenUsage))
    (article : GlobeArticle) : ProcessArticleResult :=
  match llm_handler article with
  | .error e => .failure ⟨article, e⟩
  | .ok (llm_result, token_usage) =>
    match (translateIfNeeded article).result with
    | .error e => .failure ⟨article, e⟩
    | .ok (tt, td) => .success (createCuratedArticle article llm_result tt td) token_usage

/-! Azure OpenAI handler (azure_openai.py). -/

/-- Outcome of one `chain.invoke` call inside
`AzureOpenAIHandler.process_article_batch.process_single_article`: a parsed
`LLMArticleData` with the token usage reported by the call, a
`RateLimitError`, or any other exception. -/
inductive InvokeOutcome where
  | parsed (result : LLMArticleData) (usage : TokenUsage)
  | rateLimitError (msg : String)
  | otherError (msg : String)
  deriving Repr

/-- Trace of one `process_single_article` run: the backoff sleeps performed
(seconds, in order), the number of `RateLimitError` responses consumed, and
the final outcome (the parsed data with its usage, or the message of the
raised `AzureOpenAIHandlerError`). -/
structure SingleArticleRun where
  sleeps : List Nat
  rate_limit_hits : Nat
  result : Except String (LLMArticleData × TokenUsage)
  deriving Repr

/-- The `for attempt in range(max_retries)` loop of `process_single_article`,
recursing on the number of remaining attempts (`remaining + 1` attempts are
still available, the current one included; `attempt` is the current loop
index).  On success the parsed result is returned; on a `RateLimitError` the
loop sleeps `initial_wait * 2 ^ attempt` seconds and retries unless this was
the last attempt, in which case the max-retries error is raised; any other
exception is re-raised immediately; an exhausted range falls through to the
final defensive raise. -/
def processSingleArticleLoop (oracle : Nat → InvokeOutcome) (initial_wait : Nat) :
    Nat → Nat → SingleArticleRun
  | _, 0 => ⟨[], 0, .error "Unexpected: Max retries reached without throwing an exception"⟩
  | attempt, remaining + 1 =>
    match oracle attempt with
    | .parsed r u => ⟨[], 0, .ok (r, u)⟩
    | .otherError m => ⟨[], 0, .error ("Error processing article: " ++ m)⟩
    | .rateLimitError m =>
      if remaining = 0 then
        ⟨[], 1, .error ("Max retries reached for rate limit: " ++ m)⟩
      else
        let rest := processSingleArticleLoop oracle initial_wait (attempt + 1) remaining
        ⟨initial_wait * 2 ^ attempt :: rest.sleeps, rest.rate_limit_hits + 1, rest.result⟩

/-- Embeds `process_single_article` (azure_openai.py): the retry loop started
at attempt 0 with all `max_retries` attempts available.  The call sites pass
`max_retries=4` and `initial_wait=8`. -/
def processSingleArticle (oracle : Nat → InvokeOutcome)
    (max_retries initial_wait : Nat) : SingleArticleRun :=
  processSingleArticleLoop oracle initial_wait 0 max_retries

/-- The article dictionaries handed to `process_article_batch`: the fields it
reads are `id` and `content`. -/
structure BatchArticleDict where
  id : Nat
  content : String
  deriving Repr, DecidableEq

/-- The result-collection loop of `process_article_batch`: each article's
future resolves to its `process_single_article` run (with `max_retries=4`,
`initial_wait=8`); parsed results go to the successful list with their usage
added to the shared accumulator, raised errors go to the failed list together
with the error message. -/
def partitionBatchResults (oracle : BatchArticleDict → Nat → InvokeOutcome) :
    List BatchArticleDict →
      List (BatchArticleDict × LLMArticleData) × List (BatchArticleDict × String) × TokenUsage
  | [] => ([], [], ⟨0, 0⟩)
  | article :: rest =>
    let acc := partitionBatchResults oracle rest
    match (processSingleArticle (oracle article) 4 8).result with
    | .ok (r, u) =>
        ((article, r) :: acc.1, acc.2.1,
         ⟨u.input_tokens + acc.2.2.input_tokens, u.output_tokens + acc.2.2.output_tokens⟩)
    | .error m => (acc.1, (article, m) :: acc.2.1, acc.2.2)

/-- Embeds `AzureOpenAIHandler.process_article_batch`: the worker pool is
`ThreadPoolExecutor(max_workers=min(10, len(articles)))`, and the executor
raises `ValueError` when `max_workers` is not positive; otherwise every
article is processed and the partitioned results are returned. -/
def processArticleBatch (oracle : BatchArticleDict → Nat → InvokeOutcome)
    (articles : List BatchArticleDict) :
    Except String
      (List (BatchArticleDict × LLMArticleData) × List (BatchArticleDict × String) × TokenUsage) :=
  let max_workers := min 10 articles.length
  if max_workers ≤ 0 then
    .error "ValueError: max_workers must be greater than 0"
  else
    .ok (partitionBatchResults oracle articles)

/-! Azure translator retry loop (translator.py, `translate_async`). -/

/-- Terminating (non-429) response of the Azure translate call inside
`translate_async`: a successful HTTP response carrying the translated text, or
an HTTP status error other than 429. -/
inductive TerminalResponse where
  | success (translated_text : String)
  | httpStatusError (msg : String)
  deriving Repr

/-- How `translate_async` finishes on a terminating response: an empty
translated text raises `ArticleTranslatorError("Translation failed:")`, a
non-429 status error raises `ArticleTranslatorError` carrying the upstream
detail, and otherwise the translated text is returned. -/
def translateTerminal : TerminalResponse → Except String String
  | .success t => if t = "" then .error "Translation failed:" else .ok t
  | .httpStatusError m => .error ("Translation failed: " ++ m)

/-- The `while True` retry loop of `translate_async` for a run receiving the
given finite sequence of 429 rate-limit responses (each with an optional
server Retry-After value, in seconds) followed by a terminating response.
The backoff variable enters the loop at `_initial_backoff = 1.0`; on each 429
it is set to the Retry-After value when present and otherwise doubled up to
`_max_backoff = 60.0`, and the loop sleeps for the updated value before
retrying.  Returns the sleep delays in order and the final outcome. -/
def translateAsyncLoop (max_backoff : ℚ) :
    ℚ → List (Option ℚ) → TerminalResponse → List ℚ × Except String String
  | _, [], final => ([], translateTerminal final)
  | backoff, r :: rest, final =>
    let b := match r with
      | some retry_after => retry_after
      | none => min (backoff * 2) max_backoff
    let res := translateAsyncLoop max_backoff b rest final
    (b :: res.1, res.2)

/-- Embeds `ArticleTranslator.translate_async` with the constructor-set
constants `_initial_backoff = 1.0` and `_max_backoff = 60.0`. -/
def translateAsync (rate_limits : List (Option ℚ)) (final : TerminalResponse) :
    List ℚ × Except String String :=
  translateAsyncLoop 60 1 rate_limits final

/-! MongoDB handler (mongo_handler.py). -/

/-- State of the two collections used by `MongoHandler`: the primary
`articles` collection (document payloads keyed by id) and the
`failed_articles` quarantine collection (payloads keyed by id, each carrying a
failure reason). -/
structure MongoState where
  articles : List (Nat × String)
  failed_articles : List (Nat × String × String)
  deriving Repr, DecidableEq

/-- `self._articles.find_one({"_id": id})`: the stored document, if present. -/
def findOneArticle (st : MongoState) (key : Nat) : Option String :=
  (st.articles.find? (fun d => d.1 = key)).map Prod.snd

/-- `self._articles.delete_one({"_id": key})`: removes the document with the
given id and reports the `deleted_count`. -/
def deleteOneArticle (st : MongoState) (key : Nat) : MongoState × Nat :=
  if st.articles.any (fun d => d.1 = key) then
    ({ st with articles := st.articles.filter (fun d => d.1 ≠ key) }, 1)
  else (st, 0)

/-- `self._failed_articles.insert_one(article)`: raises a duplicate-key
`OperationFailure` (code 11000, with the offending id as its keyValue) when a
quarantined document with the same id already exists; otherwise inserts the
document and reports its id as `inserted_id`. -/
def insertOneFailed (st : MongoState) (key : Nat) (doc reason : String) :
    Except Nat (MongoState × Option Nat) :=
  if st.failed_articles.any (fun d => d.1 = key) then
    .error key
  else
    .ok ({ st with failed_articles := (key, doc, reason) :: st.failed_articles }, some key)

/-- The log lines emitted by `MongoHandler.update_articles` and
`MongoHandler.move_failed_articles`. -/
inductive MongoLog where
  | warnArticleNotFound (key : Nat)
  | warnInsertFailed (key : Nat)
  | warnDeleteFailed (key : Nat)
  | warnDuplicate (key : Nat)
  | errorMovingFailed (msg : String)
  | errorUpdating (msg : String)
  deriving Repr, DecidableEq

/-- The `for failed_article in failed_articles` loop of
`MongoHandler.move_failed_articles`, running inside the surrounding `try`:
each article is looked up in the primary collection, inserted into quarantine,
and deleted from the primary collection only after the insertion succeeded; a
missing document, a falsy `inserted_id` or a zero `deleted_count` logs a
warning and moves on.  A duplicate-key `OperationFailure` aborts the loop: the
error escapes with the state, the ids moved so far, the logs so far, and the
duplicate keyValue. -/
def moveFailedLoop (st : MongoState) (fas : List FailedGlobeArticle)
    (moved : List Nat) (logs : List MongoLog) :
    Except (MongoState × List Nat × List MongoLog × Nat)
      (MongoState × List Nat × List MongoLog) :=
  match fas with
  | [] => .ok (st, moved, logs)
  | fa :: rest =>
    let key := fa.toGlobeArticle.id
    match findOneArticle st key with
    | some doc =>
      match insertOneFailed st key doc fa.failure_reason with
      | .error kv => .error (st, moved, logs, kv)
      | .ok (st', inserted_id) =>
        if inserted_id.isSome then
          let del := deleteOneArticle st' key
          if del.2 > 0 then
            moveFailedLoop del.1 rest (moved ++ [key]) logs
          else
            moveFailedLoop del.1 rest moved (logs ++ [.warnDeleteFailed key])
        else
          moveFailedLoop st' rest moved (logs ++ [.warnInsertFailed key])
    | none => moveFailedLoop st rest moved (logs ++ [.warnArticleNotFound key])

/-- Embeds `MongoHandler.move_failed_articles`: the loop runs inside `try`;
the duplicate-key handler (code 11000) logs a warning and deletes the primary
document matching the duplicate keyValue instead of propagating the storage
error, and the (possibly partial) list of moved ids is returned either way. -/
def moveFailedArticles (st : MongoState) (fas : List FailedGlobeArticle) :
    MongoState × List Nat × List MongoLog :=
  match moveFailedLoop st fas [] [] with
  | .ok (st', moved, logs) => (st', moved, logs)
  | .error (st', moved, logs, kv) =>
    ((deleteOneArticle st' kv).1, moved, logs ++ [.warnDuplicate kv])

/-- Outcome of one `self._articles.update_one(...)` call in
`MongoHandler.update_articles`: an update result carrying `modified_count`, or
a raised `PyMongoError`. -/
inductive UpdateOneOutcome where
  | modifiedCount (n : Nat)
  | pymongoError (msg : String)
  deriving Repr, DecidableEq

/-- Whether an `update_one` outcome is a raised `PyMongoError`. -/
def isPymongoError : UpdateOneOutcome → Bool
  | .pymongoError _ => true
  | .modifiedCount _ => false

/-- Whether an `update_one` outcome reports a positive `modified_count`. -/
def isModifiedPositive : UpdateOneOutcome → Bool
  | .modifiedCount n => n > 0
  | .pymongoError _ => false

/-- Embeds `MongoHandler.update_articles`: the whole `for` loop runs inside a
single `try`; each curated article's `update_one` outcome is given by the
database oracle `db` (keyed by article id); ids whose update reports
`modified_count > 0` are collected; a `PyMongoError` aborts the loop, is
logged, and the ids collected so far are returned.  The returned triple is
(updated ids, ids for which `update_one` was attempted, logs). -/
def updateArticles (db : Nat → UpdateOneOutcome) :
    List CuratedGlobeArticle → List Nat × List Nat × List MongoLog
  | [] => ([], [], [])
  | ca :: rest =>
    let key := ca.toGlobeArticle.id
    match db key with
    | .pymongoError m => ([], [key], [.errorUpdating ("Error updating article: " ++ m)])
    | .modifiedCount n =>
      let res := updateArticles db rest
      ((if n > 0 then key :: res.1 else res.1), key :: res.2.1, res.2.2)

/-! LLM handler factory and ABC semantics (base.py, factory.py). -/

/-- The configuration fields consulted by `LLMHandlerFactory.create_handler`
and its Azure validation helpers (config.py / factory.py). -/
structure LLMConfig where
  LLM_PROVIDER : String
  LLM_API_KEY : String
  LLM_ENDPOINT : String
  LLM_API_VERSION : String
  FEW_SHOT_EXAMPLES_FILE : String
  SYSTEM_PROMPT_FILE : String
  deriving Repr, DecidableEq

/-- Embeds `LLMHandlerFactory._validate_azure_openai_config` and its helpers:
a missing API key, endpoint or API version, or an absent few-shot examples or
system prompt file (file existence modelled by `file_is_present`), raises
`ValueError`. -/
def validateAzureOpenAIConfig (file_is_present : String → Bool) (config : LLMConfig) :
    Except String Unit :=
  if config.LLM_API_KEY = "" then .error "Azure OpenAI API key is not configured"
  else if config.LLM_ENDPOINT = "" then .error "Azure OpenAI endpoint is not configured"
  else if config.LLM_API_VERSION = "" then .error "Azure OpenAI API version is not configured"
  else if !file_is_present config.FEW_SHOT_EXAMPLES_FILE then
    .error ("Few-shot examples file not found: " ++ config.FEW_SHOT_EXAMPLES_FILE)
  else if !file_is_present config.SYSTEM_PROMPT_FILE then
    .error ("System prompt file not found: " ++ config.SYSTEM_PROMPT_FILE)
  else .ok ()

/-- The abstract method names of `BaseLLMHandler` (base.py): only
`process_article` carries the `@abstractmethod` decorator. -/
def baseLLMHandlerAbstractMethods : List String := ["process_article"]

/-- The method names defined in the class body of `AzureOpenAIHandler`
(azure_openai.py).  `process_article` is not among them — the class defines
`process_article_batch` instead. -/
def azureOpenAIHandlerMethods : List String :=
  ["__init__", "_initialize_llm", "_create_structured_llm", "process_article_batch"]

/-- Python ABC semantics for `AzureOpenAIHandler(config)`: a subclass of an
ABC can be instantiated only when every inherited abstract method is
overridden in the subclass; otherwise instantiation raises `TypeError`. -/
def instantiateAzureOpenAIHandler : Except String Unit :=
  if baseLLMHandlerAbstractMethods.all (fun m => m ∈ azureOpenAIHandlerMethods) then
    .ok ()
  else
    .error "TypeError: cannot instantiate abstract class AzureOpenAIHandler with abstract method process_article"

/-- Embeds `LLMHandlerFactory.create_handler`: for provider `azure_openai`
the config is validated and then `AzureOpenAIHandler(config)` is constructed;
any other provider raises `ValueError`. -/
def createHandler (file_is_present : String → Bool) (config : LLMConfig) :
    Except String Unit :=
  if config.LLM_PROVIDER = "azure_openai" then
    match validateAzureOpenAIConfig file_is_present config with
    | .error e => .error e
    | .ok _ => instantiateAzureOpenAIHandler
  else .error ("Unsupported LLM provider: " ++ config.LLM_PROVIDER)

/-- Embeds `ArticlePostProcessor.__init__`: constructs the translator and then
asks the factory for the LLM handler; an exception from the factory
propagates out of the constructor. -/
def articlePostProcessorInit (file_is_present : String → Bool) (config : LLMConfig) :
    Except String Unit :=
  match createHandler file_is_present config with
  | .error e => .error e
  | .ok _ => .ok ()

/-- A concrete article value used to instantiate theorems on concrete inputs
(mirrors the test fixture data of tests/conftest.py). -/
def mkSampleArticle (key : Nat) (language : Option String) : GlobeArticle :=
  { id := key, title := "Test Article", title_translated := none,
    url := "https://example.com/test-article", description := "This is a test article",
    description_translated := none, date_published := 0, provider := "Test Provider",
    language := language, content := "Test content", origin_country := "DE",
    keywords := ["test"], source_api := "test_api", schema_version := "1.1",
    date_scraped := 0, post_processed := false }

end GlobeNews

namespace GlobeNews

/-- C1: batch processing gives each input article exactly one disposition, so
the curated and failed counts sum to the input count, for every batch and
every per-article processing function. -/
theorem processBatch_count_conserved (proc : GlobeArticle → ProcessArticleResult)
    (articles : List GlobeArticle) :
    (processBatch proc articles).1.length + (processBatch proc articles).2.1.length
      = articles.length := by
  induction articles with
  | nil => rfl
  | cons a rest ih =>
    simp only [processBatch]
    cases h : proc a <;> simp [List.length_cons] <;> omega

/-- C2: a successfully constructed curated article never lists its own origin
country among its related countries (for any valid, i.e. nonempty, origin
country code). -/
theorem curated_no_origin_in_related (article : GlobeArticle)
    (llm_result : LLMArticleData) (tt td : String)
    (h : article.origin_country ≠ "") :
    article.origin_country ∉
      ((createCuratedArticle article llm_result tt td).toGlobeArticle.related_countries).getD [] := by
  unfold createCuratedArticle validateCurated optListTruthy
  cases hrc : llm_result.related_countries with
  | nil => simp [h]
  | cons c cs =>
    simp only [h, hrc, ne_eq, not_false_iff, List.isEmpty_cons, Bool.not_false, true_and,
      if_true, Option.getD_some, and_self, ite_true]
    intro hmem
    have := List.of_mem_filter hmem
    simp at this

/-- Witness for C2 at the spec's own example: origin country DE with
enrichment-returned related countries [DE, FR]. -/
theorem curated_no_origin_in_related_witness :
    ("DE" : String) ≠ "" ∧
    "DE" ∉
      ((createCuratedArticle
        { id := 1, title := "t", title_translated := none, url := "u",
          description := "d", description_translated := none,
          date_published := 0, provider := "p", language := some "de",
          content := "c", origin_country := "DE", keywords := [],
          source_api := "api", schema_version := "1.1", date_scraped := 0,
          post_processed := false }
        { category := "POLITICS", related_countries := ["DE", "FR"], keywords := ["k"] }
        "tt" "td").toGlobeArticle.related_countries).getD [] :=
  ⟨by decide, curated_no_origin_in_related _ _ _ _ (by decide)⟩

/-- C3 counterexample: with the configured cap of 4 attempts and 8-second
initial delay, a run receiving only rate-limit responses consumes 4 of them
and then yields the permanent failure, but performs only 3 backoff sleeps
(8s, 16s, 32s) — not one sleep per rate-limit response as claimed. -/
theorem processSingleArticle_four_rate_limits_three_sleeps :
    (processSingleArticle (fun _ => .rateLimitError "429") 4 8).rate_limit_hits = 4 ∧
    (processSingleArticle (fun _ => .rateLimitError "429") 4 8).sleeps = [8, 16, 32] ∧
    (processSingleArticle (fun _ => .rateLimitError "429") 4 8).result
      = .error "Max retries reached for rate limit: 429" ∧
    (processSingleArticle (fun _ => .rateLimitError "429") 4 8).sleeps.length ≠
      (processSingleArticle (fun _ => .rateLimitError "429") 4 8).rate_limit_hits := by
  refine ⟨rfl, rfl, rfl, ?_⟩
  decide

/-- C3 (amended): with the configured cap (`max_retries=4`, `initial_wait=8`),
a run of repeated rate-limit responses makes exactly 4 attempts, sleeping
8, 16 and 32 seconds between consecutive attempts, and then yields the
permanent max-retries failure — so 4 rate-limit responses produce 3 backoff
sleeps followed by the failure. -/
theorem processSingleArticle_rate_limit_cap (msgs : Nat → String) :
    processSingleArticle (fun i => .rateLimitError (msgs i)) 4 8
      = ⟨[8, 16, 32], 4, .error ("Max retries reached for rate limit: " ++ msgs 3)⟩ :=
  rfl

/-- C4: when the article's language is unset or English, the translation step
returns the original title and description unchanged and makes no call on the
translator. -/
theorem translateIfNeeded_skips_english (article : GlobeArticle)
    (h : article.language = none ∨ article.language = some "en") :
    translateIfNeeded article = ⟨.ok (article.title, article.description), 0⟩ := by
  rcases h with h | h <;> simp [translateIfNeeded, h]

/-- Witness for C4 at a concrete English article. -/
theorem translateIfNeeded_skips_english_witness :
    (mkSampleArticle 1 (some "en")).language = some "en" ∧
    translateIfNeeded (mkSampleArticle 1 (some "en")) =
      ⟨.ok ((mkSampleArticle 1 (some "en")).title, (mkSampleArticle 1 (some "en")).description), 0⟩ :=
  ⟨rfl, translateIfNeeded_skips_english _ (Or.inr rfl)⟩

/-- C8: for an article whose language is set and not English, even when the
LLM handler call succeeds, `process_article` returns a `FailedGlobeArticle`
with a non-empty failure reason: the translation branch looks up the attribute
`translate` on the `ArticleTranslator`, which only defines `translate_async`,
so the lookup raises `AttributeError` and the handler converts the article to
the failed disposition. -/
theorem processArticle_nonenglish_translate_fails
    (llm_handler : GlobeArticle → Except String (LLMArticleData × TokenUsage))
    (article : GlobeArticle) (lang : String)
    (hlang : article.language = some lang) (hne : lang ≠ "en")
    (llm_result : LLMArticleData) (token_usage : TokenUsage)
    (hok : llm_handler article = .ok (llm_result, token_usage)) :
    processArticle llm_handler article = .failure ⟨article, translateAttributeError⟩ ∧
      translateAttributeError ≠ "" := by
  constructor
  · simp [processArticle, hok, translateIfNeeded, hlang, hne, translatorTranslate,
      articleTranslatorMethodNames]
  · decide

/-- Witness for C8 at a concrete Czech article with a successful LLM outcome. -/
theorem processArticle_nonenglish_translate_fails_witness :
    (mkSampleArticle 1 (some "cs")).language = some "cs" ∧ ("cs" : String) ≠ "en" ∧
    processArticle
        (fun _ => .ok (⟨"POLITICS", ["FR"], ["k"]⟩, ⟨100, 50⟩))
        (mkSampleArticle 1 (some "cs"))
      = .failure ⟨mkSampleArticle 1 (some "cs"), translateAttributeError⟩ :=
  ⟨rfl, by decide,
    (processArticle_nonenglish_translate_fails _ _ "cs" rfl (by decide) ⟨"POLITICS", ["FR"], ["k"]⟩
      ⟨100, 50⟩ rfl).1⟩

/-- C10: `process_article_batch` on an empty article list sizes its worker
pool `min(10, 0) = 0`, which the executor rejects with an error; on every
non-empty list the pool size is at least 1 and the call returns the
partitioned results, one disposition per input article. -/
theorem processArticleBatch_worker_pool (oracle : BatchArticleDict → Nat → InvokeOutcome) :
    processArticleBatch oracle [] = .error "ValueError: max_workers must be greater than 0" ∧
    ∀ articles : List BatchArticleDict, articles ≠ [] →
      1 ≤ min 10 articles.length ∧
      ∃ s f u, processArticleBatch oracle articles = .ok (s, f, u) ∧
        s.length + f.length = articles.length := by
  refine ⟨rfl, fun articles hne => ⟨?_, ?_⟩⟩
  · have : 0 < articles.length := List.length_pos.mpr hne
    omega
  · have hpos : 0 < articles.length := List.length_pos.mpr hne
    refine ⟨(partitionBatchResults oracle articles).1,
      (partitionBatchResults oracle articles).2.1,
      (partitionBatchResults oracle articles).2.2, ?_, ?_⟩
    · unfold processArticleBatch
      have : ¬ (min 10 articles.length ≤ 0) := by omega
      simp [this]
    · clear hne hpos
      induction articles with
      | nil => rfl
      | cons a rest ih =>
        simp only [partitionBatchResults]
        cases h : (processSingleArticle (oracle a) 4 8).result <;>
          simp [List.length_cons] <;> omega

/-- Witness for C10 at a singleton batch. -/
theorem processArticleBatch_worker_pool_witness :
    1 ≤ min 10 ([⟨1, "c"⟩] : List BatchArticleDict).length ∧
    ∃ s f u, processArticleBatch (fun _ _ => .rateLimitError "429") [⟨1, "c"⟩]
        = .ok (s, f, u) ∧ s.length + f.length = ([⟨1, "c"⟩] : List BatchArticleDict).length :=
  (processArticleBatch_worker_pool (fun _ _ => .rateLimitError "429")).2 [⟨1, "c"⟩] (by decide)

/-! Helper lemmas about the translate retry loop (shared, not claim-bound). -/

theorem translateAsyncLoop_sleeps_length (final : TerminalResponse) :
    ∀ (rate_limits : List (Option ℚ)) (b : ℚ),
      (translateAsyncLoop 60 b rate_limits final).1.length = rate_limits.length := by
  intro rls
  induction rls with
  | nil => intro b; rfl
  | cons r rest ih => intro b; simp [translateAsyncLoop, ih]

theorem translateAsyncLoop_result_eq (final : TerminalResponse) :
    ∀ (rate_limits : List (Option ℚ)) (b : ℚ),
      (translateAsyncLoop 60 b rate_limits final).2 = translateTerminal final := by
  intro rls
  induction rls with
  | nil => intro b; rfl
  | cons r rest ih => intro b; simp [translateAsyncLoop, ih]

theorem translateAsyncLoop_retry_after (final : TerminalResponse) :
    ∀ (rate_limits : List (Option ℚ)) (b : ℚ) (i : Nat) (r : ℚ),
      rate_limits[i]? = some (some r) →
      (translateAsyncLoop 60 b rate_limits final).1[i]? = some r := by
  intro rls
  induction rls with
  | nil => intro b i r h; simp at h
  | cons r0 rest ih =>
    intro b i r h
    cases i with
    | zero =>
      simp only [List.getElem?_cons_zero, Option.some.injEq] at h
      subst h
      simp [translateAsyncLoop]
    | succ j =>
      simp only [List.getElem?_cons_succ] at h
      simpa [translateAsyncLoop] using ih _ j r h

theorem translateAsyncLoop_replicate_none (final : TerminalResponse) :
    ∀ (n i : Nat) (b : ℚ), i < n →
      (translateAsyncLoop 60 b (List.replicate n none) final).1[i]?
        = some (min (b * 2 ^ (i + 1)) 60) := by
  intro n
  induction n with
  | zero => intro i b h; omega
  | succ k ih =>
    intro i b h
    rw [List.replicate_succ]
    cases i with
    | zero => simp [translateAsyncLoop, pow_one]
    | succ j =>
      have hj : j < k := by omega
      have step := ih j (min (b * 2) 60) hj
      have hpow : (0 : ℚ) ≤ 2 ^ (j + 1) := by positivity
      have hone : (1 : ℚ) ≤ 2 ^ (j + 1) := one_le_pow₀ (by norm_num)
      calc (translateAsyncLoop 60 b (none :: List.replicate k none) final).1[j + 1]?
          = (translateAsyncLoop 60 (min (b * 2) 60) (List.replicate k none) final).1[j]? := by
            simp [translateAsyncLoop]
        _ = some (min (min (b * 2) 60 * 2 ^ (j + 1)) 60) := step
        _ = some (min (b * 2 ^ (j + 1 + 1)) 60) := by
            congr 1
            rw [min_mul_of_nonneg _ _ hpow, min_assoc]
            have h60 : min ((60 : ℚ) * 2 ^ (j + 1)) 60 = 60 := by
              rw [min_eq_right]
              nlinarith
            rw [h60]
            ring_nf

/-- C5 counterexample: on the very first 429 without a Retry-After header the
code doubles the backoff variable before sleeping, so the first retry delay is
2 seconds, not the claimed 1-second initial delay. -/
theorem translateAsync_first_delay_two_not_one :
    (translateAsync [none] (.success "hello")).1 = [2] ∧ ((2 : ℚ) ≠ 1) := by
  constructor
  · show [min ((1 : ℚ) * 2) 60] = [2]
    norm_num
  · norm_num

/-- C5 (amended): in the translate retry loop, every rate-limit response
produces exactly one sleep and retries continue until the first non-rate-limit
response, whose outcome is returned (no attempt cap); the delay before a retry
is the server Retry-After value when present; and without Retry-After headers
the backoff variable starts at 1 second and is doubled (capped at 60 seconds)
before each sleep, so the i-th delay is min(2^(i+1), 60) seconds — 2, 4, 8,
..., rather than starting at 1 second. -/
theorem translateAsync_backoff_behaviour :
    (∀ (rate_limits : List (Option ℚ)) (final : TerminalResponse),
      (translateAsync rate_limits final).1.length = rate_limits.length ∧
      (translateAsync rate_limits final).2 = translateTerminal final) ∧
    (∀ (rate_limits : List (Option ℚ)) (final : TerminalResponse) (i : Nat) (r : ℚ),
      rate_limits[i]? = some (some r) →
      (translateAsync rate_limits final).1[i]? = some r) ∧
    (∀ (n i : Nat) (final : TerminalResponse), i < n →
      (translateAsync (List.replicate n none) final).1[i]?
        = some (min ((2 : ℚ) ^ (i + 1)) 60)) := by
  refine ⟨fun rls final => ⟨translateAsyncLoop_sleeps_length final rls 1,
      translateAsyncLoop_result_eq final rls 1⟩,
    fun rls final i r h => translateAsyncLoop_retry_after final rls 1 i r h,
    fun n i final h => ?_⟩
  have := translateAsyncLoop_replicate_none final n i 1 h
  simpa [translateAsync] using this

/-- Witness for C5 (amended) at concrete runs: a Retry-After of 5 seconds is
honored, and the seventh consecutive headerless delay has hit the 60-second
ceiling. -/
theorem translateAsync_backoff_behaviour_witness :
    (translateAsync [some 5] (.success "x")).1[0]? = some (5 : ℚ) ∧
    (translateAsync (List.replicate 7 (none : Option ℚ)) (.success "x")).1[6]?
      = some (min ((2 : ℚ) ^ 7) 60) :=
  ⟨translateAsync_backoff_behaviour.2.1 [some 5] (.success "x") 0 5 rfl,
   translateAsync_backoff_behaviour.2.2 7 6 (.success "x") (by omega)⟩

/-! Helper lemma about delete_one (shared, not claim-bound). -/

theorem deleteOneArticle_not_mem (st : MongoState) (key : Nat) :
    ∀ d ∈ (deleteOneArticle st key).1.articles, d.1 ≠ key := by
  intro d hd
  unfold deleteOneArticle at hd
  by_cases hany : st.articles.any (fun x => x.1 = key)
  · rw [if_pos hany] at hd
    have := List.of_mem_filter hd
    simpa using this
  · rw [if_neg hany] at hd
    intro hcontra
    exact hany (List.any_eq_true.mpr ⟨d, hd, by simpa using hcontra⟩)

/-- C6: when the quarantine insertion for a failed article hits a
duplicate-key condition, `move_failed_articles` still deletes the primary
document with that key, logs a duplicate warning, and returns the moved ids
normally — the duplicate-key error never reaches the caller. -/
theorem moveFailedArticles_duplicate_key (st : MongoState)
    (fas : List FailedGlobeArticle) (st' : MongoState) (moved : List Nat)
    (logs : List MongoLog) (kv : Nat)
    (h : moveFailedLoop st fas [] [] = .error (st', moved, logs, kv)) :
    (∀ d ∈ (moveFailedArticles st fas).1.articles, d.1 ≠ kv) ∧
    MongoLog.warnDuplicate kv ∈ (moveFailedArticles st fas).2.2 ∧
    (moveFailedArticles st fas).2.1 = moved := by
  unfold moveFailedArticles
  rw [h]
  exact ⟨deleteOneArticle_not_mem st' kv, by simp, rfl⟩

/-- Witness for C6: a single failed article whose id is already quarantined. -/
theorem moveFailedArticles_duplicate_key_witness :
    (∀ d ∈ (moveFailedArticles ⟨[(1, "doc")], [(1, "doc0", "r0")]⟩
        [⟨mkSampleArticle 1 (some "en"), "reason"⟩]).1.articles, d.1 ≠ 1) ∧
    MongoLog.warnDuplicate 1 ∈ (moveFailedArticles ⟨[(1, "doc")], [(1, "doc0", "r0")]⟩
        [⟨mkSampleArticle 1 (some "en"), "reason"⟩]).2.2 ∧
    (moveFailedArticles ⟨[(1, "doc")], [(1, "doc0", "r0")]⟩
        [⟨mkSampleArticle 1 (some "en"), "reason"⟩]).2.1 = [] :=
  moveFailedArticles_duplicate_key _ _ ⟨[(1, "doc")], [(1, "doc0", "r0")]⟩ [] [] 1 rfl

/-- C7 counterexample: with two curated articles where the first update raises
a storage error and the second would succeed, `update_articles` attempts only
the first article — the second is never attempted — and returns no ids. -/
theorem updateArticles_abort_counterexample :
    (updateArticles
        (fun k => if k = 1 then .pymongoError "Update error" else .modifiedCount 1)
        [⟨mkSampleArticle 1 (some "en")⟩, ⟨mkSampleArticle 2 (some "en")⟩]).2.1 = [1] ∧
    2 ∉ (updateArticles
        (fun k => if k = 1 then .pymongoError "Update error" else .modifiedCount 1)
        [⟨mkSampleArticle 1 (some "en")⟩, ⟨mkSampleArticle 2 (some "en")⟩]).2.1 ∧
    (updateArticles
        (fun k => if k = 1 then .pymongoError "Update error" else .modifiedCount 1)
        [⟨mkSampleArticle 1 (some "en")⟩, ⟨mkSampleArticle 2 (some "en")⟩]).1 = [] := by
  refine ⟨rfl, ?_, rfl⟩
  have h : (updateArticles
      (fun k => if k = 1 then .pymongoError "Update error" else .modifiedCount 1)
      [⟨mkSampleArticle 1 (some "en")⟩, ⟨mkSampleArticle 2 (some "en")⟩]).2.1 = [1] := rfl
  rw [h]
  decide

/-- C7 (amended): a storage failure in `update_articles` is logged but aborts
the remainder of the batch: the articles before the failing one and the
failing one itself are the only ones attempted, the ids returned are those of
the preceding articles whose update reported a positive modified count, and
exactly the one error line is logged. -/
theorem updateArticles_error_aborts_batch (db : Nat → UpdateOneOutcome)
    (pre post : List CuratedGlobeArticle) (ca : CuratedGlobeArticle) (m : String)
    (hpre : ∀ b ∈ pre, isPymongoError (db b.toGlobeArticle.id) = false)
    (ha : db ca.toGlobeArticle.id = .pymongoError m) :
    (updateArticles db (pre ++ ca :: post)).2.1
        = (pre ++ [ca]).map (fun c => c.toGlobeArticle.id) ∧
    (updateArticles db (pre ++ ca :: post)).1
        = (pre.filter (fun c => isModifiedPositive (db c.toGlobeArticle.id))).map
            (fun c => c.toGlobeArticle.id) ∧
    (updateArticles db (pre ++ ca :: post)).2.2
        = [.errorUpdating ("Error updating article: " ++ m)] := by
  induction pre with
  | nil => simp [updateArticles, ha]
  | cons b rest ih =>
    have hb : isPymongoError (db b.toGlobeArticle.id) = false := hpre b (by simp)
    obtain ⟨ih1, ih2, ih3⟩ := ih (fun x hx => hpre x (by simp [hx]))
    cases hdb : db b.toGlobeArticle.id with
    | pymongoError m2 => rw [hdb] at hb; simp [isPymongoError] at hb
    | modifiedCount n =>
      refine ⟨?_, ?_, ?_⟩
      · simpa [updateArticles, hdb] using ih1
      · by_cases hn : n > 0
        · simpa [updateArticles, hdb, hn, List.filter_cons, isModifiedPositive] using ih2
        · simpa [updateArticles, hdb, hn, List.filter_cons, isModifiedPositive] using ih2
      · simpa [updateArticles, hdb] using ih3

/-- Witness for C7 (amended): one preceding article that succeeds, then the
failing article. -/
theorem updateArticles_error_aborts_batch_witness :
    (updateArticles (fun k => if k = 2 then .pymongoError "boom" else .modifiedCount 1)
        [⟨mkSampleArticle 1 (some "en")⟩, ⟨mkSampleArticle 2 (some "en")⟩]).2.1 = [1, 2] ∧
    (updateArticles (fun k => if k = 2 then .pymongoError "boom" else .modifiedCount 1)
        [⟨mkSampleArticle 1 (some "en")⟩, ⟨mkSampleArticle 2 (some "en")⟩]).1 = [1] ∧
    (updateArticles (fun k => if k = 2 then .pymongoError "boom" else .modifiedCount 1)
        [⟨mkSampleArticle 1 (some "en")⟩, ⟨mkSampleArticle 2 (some "en")⟩]).2.2
      = [.errorUpdating ("Error updating article: " ++ "boom")] := by
  have h := updateArticles_error_aborts_batch
    (fun k => if k = 2 then .pymongoError "boom" else .modifiedCount 1)
    [⟨mkSampleArticle 1 (some "en")⟩] [] ⟨mkSampleArticle 2 (some "en")⟩ "boom"
    (by decide) (by decide)
  simpa [mkSampleArticle, isModifiedPositive] using h

/-- C9: for every configuration with provider azure_openai that passes the
factory's validation, `create_handler` raises at `AzureOpenAIHandler`
instantiation — the class never overrides the abstract `process_article` —
and therefore constructing an `ArticlePostProcessor` fails as well. -/
theorem createHandler_abstract_method_raises (file_is_present : String → Bool)
    (config : LLMConfig) (hp : config.LLM_PROVIDER = "azure_openai")
    (hv : validateAzureOpenAIConfig file_is_present config = .ok ()) :
    createHandler file_is_present config
      = .error "TypeError: cannot instantiate abstract class AzureOpenAIHandler with abstract method process_article" ∧
    articlePostProcessorInit file_is_present config
      = .error "TypeError: cannot instantiate abstract class AzureOpenAIHandler with abstract method process_article" := by
  have h1 : createHandler file_is_present config = instantiateAzureOpenAIHandler := by
    simp [createHandler, hp, hv]
  have h2 : instantiateAzureOpenAIHandler
      = .error "TypeError: cannot instantiate abstract class AzureOpenAIHandler with abstract method process_article" := by
    rfl
  refine ⟨h1.trans h2, ?_⟩
  simp [articlePostProcessorInit, h1, h2]

/-- Witness for C9 at a concrete valid configuration (all required fields
present and both prompt files existing). -/
theorem createHandler_abstract_method_raises_witness :
    createHandler (fun _ => true)
        ⟨"azure_openai", "key", "https://endpoint", "2024-04-01-preview",
          "few_shot_examples.json", "azure_openai_system_prompt.txt"⟩
      = .error "TypeError: cannot instantiate abstract class AzureOpenAIHandler with abstract method process_article" :=
  (createHandler_abstract_method_raises (fun _ => true)
    ⟨"azure_openai", "key", "https://endpoint", "2024-04-01-preview",
      "few_shot_examples.json", "azure_openai_system_prompt.txt"⟩ rfl rfl).1

end GlobeNews
